import Mathlib

/-!
Shallow embedding of `src/generate_link_secret.py`.

The script draws 32 cryptographically random bytes with
`secrets.token_bytes(32)`, encodes them as a lowercase hexadecimal string with
`bytes.hex()`, joins the caller's directory and file name with `os.path.join`,
writes the string to that path with `with open(file_path, "w") as file:
file.write(hex_representation)` and returns the path.

The runtime effects are modelled explicitly:

* the random draw becomes a parameter `random_binary`, a list of naturals
  below 256 of length 32;
* the file system becomes an explicit state `IOState` threaded through the
  operation: a partial map from paths to contents, an oracle `canCreate`
  saying at which paths `open(path, "w")` succeeds (the enclosing directory
  exists and is writable), and a count of open file handles;
* a Python exception becomes the `PyResult.exn` constructor, paired with the
  state at the moment the exception escapes the operation;
* a failure of `file.write` partway through is modelled by the oracle
  `write_fails`; on that path the `with` block still closes the handle before
  the exception propagates, as CPython guarantees.
-/

/-- One lowercase hexadecimal digit character for a nibble, as produced by
CPython's `bytes.hex()`: digits `0`-`9` for values below 10, letters
`a`-`f` for values 10 to 15. -/
def hexDigit (n : Nat) : Char :=
  if n < 10 then Char.ofNat (48 + n) else Char.ofNat (87 + n)

/-- The two characters `bytes.hex()` emits for one byte: high nibble first. -/
def byteHexChars (b : Nat) : List Char :=
  [hexDigit (b / 16), hexDigit (b % 16)]

/-- Character list of the hex encoding of a byte list, two characters per
byte, in order. -/
def bytesHexChars : List Nat → List Char
  | [] => []
  | b :: bs => byteHexChars b ++ bytesHexChars bs

/-- Embedding of Python `bytes.hex()`: the lowercase hexadecimal string of a
byte list. -/
def bytesHex (bs : List Nat) : String :=
  String.mk (bytesHexChars bs)

/-- Value of a lowercase hexadecimal digit character, `none` on any other
character. -/
def hexDigitVal (c : Char) : Option Nat :=
  if 48 ≤ c.toNat ∧ c.toNat ≤ 57 then some (c.toNat - 48)
  else if 97 ≤ c.toNat ∧ c.toNat ≤ 102 then some (c.toNat - 87)
  else none

/-- Decoder for lowercase hexadecimal character lists: pairs of digits back to
bytes, `none` on odd length or a non-digit. -/
def hexDecodeChars : List Char → Option (List Nat)
  | [] => some []
  | [_] => none
  | c1 :: c2 :: rest =>
    match hexDigitVal c1, hexDigitVal c2, hexDecodeChars rest with
    | some hi, some lo, some bs => some ((16 * hi + lo) :: bs)
    | _, _, _ => none

/-- Decoder for lowercase hexadecimal strings (the lowercase fragment of
Python's `bytes.fromhex`). -/
def hexDecode (s : String) : Option (List Nat) :=
  hexDecodeChars s.data

/-- A character is one of `0`-`9` or `a`-`f`. -/
def IsLowerHexDigit (c : Char) : Prop :=
  (48 ≤ c.toNat ∧ c.toNat ≤ 57) ∨ (97 ≤ c.toNat ∧ c.toNat ≤ 102)

instance (c : Char) : Decidable (IsLowerHexDigit c) := by
  unfold IsLowerHexDigit
  infer_instance

theorem isLowerHexDigit_hexDigit : ∀ n : Nat, n < 16 → IsLowerHexDigit (hexDigit n) := by
  decide

theorem hexDigitVal_hexDigit : ∀ n : Nat, n < 16 → hexDigitVal (hexDigit n) = some n := by
  decide

theorem not_isLowerHexDigit_newline : ¬ IsLowerHexDigit (Char.ofNat 10) := by
  decide

theorem bytesHexChars_length (bs : List Nat) :
    (bytesHexChars bs).length = 2 * bs.length := by
  induction bs with
  | nil => rfl
  | cons b bs ih =>
    simp only [bytesHexChars, byteHexChars, List.length_append, List.length_cons,
      List.length_nil, ih]
    omega

theorem mem_bytesHexChars_hex (bs : List Nat) (hb : ∀ b ∈ bs, b < 256) :
    ∀ c ∈ bytesHexChars bs, IsLowerHexDigit c := by
  induction bs with
  | nil => intro c hc; cases hc
  | cons b bs ih =>
    intro c hc
    have hblt : b < 256 := hb b (by simp)
    have hdiv : b / 16 < 16 := by omega
    have hmod : b % 16 < 16 := by omega
    simp only [bytesHexChars, byteHexChars, List.mem_append, List.mem_cons,
      List.not_mem_nil, or_false] at hc
    rcases hc with (h | h) | h
    · exact h ▸ isLowerHexDigit_hexDigit _ hdiv
    · exact h ▸ isLowerHexDigit_hexDigit _ hmod
    · exact ih (fun x hx => hb x (List.mem_cons_of_mem _ hx)) c h

theorem hexDecodeChars_bytesHexChars (bs : List Nat) (hb : ∀ b ∈ bs, b < 256) :
    hexDecodeChars (bytesHexChars bs) = some bs := by
  induction bs with
  | nil => rfl
  | cons b bs ih =>
    have hblt : b < 256 := hb b (by simp)
    have hdiv : b / 16 < 16 := by omega
    have hmod : b % 16 < 16 := by omega
    have e1 := hexDigitVal_hexDigit _ hdiv
    have e2 := hexDigitVal_hexDigit _ hmod
    have ih' := ih (fun x hx => hb x (List.mem_cons_of_mem _ hx))
    have hshape : bytesHexChars (b :: bs) =
        hexDigit (b / 16) :: hexDigit (b % 16) :: bytesHexChars bs := by
      simp [bytesHexChars, byteHexChars]
    rw [hshape]
    simp only [hexDecodeChars, e1, e2, ih']
    have hrec : 16 * (b / 16) + b % 16 = b := by omega
    simp [hrec]

theorem hexDecode_bytesHex (bs : List Nat) (hb : ∀ b ∈ bs, b < 256) :
    hexDecode (bytesHex bs) = some bs :=
  hexDecodeChars_bytesHexChars bs hb

theorem bytesHex_injOn (r1 r2 : List Nat) (hb1 : ∀ b ∈ r1, b < 256)
    (hb2 : ∀ b ∈ r2, b < 256) (hne : r1 ≠ r2) : bytesHex r1 ≠ bytesHex r2 := by
  intro h
  apply hne
  have hchars : bytesHexChars r1 = bytesHexChars r2 := by
    have h2 := congrArg String.data h
    simpa [bytesHex] using h2
  have d1 := hexDecodeChars_bytesHexChars r1 hb1
  have d2 := hexDecodeChars_bytesHexChars r2 hb2
  rw [hchars, d2] at d1
  exact Option.some.inj d1.symm

/-- Whether a string starts with the POSIX separator `/`: the check
`b.startswith(sep)` inside `posixpath.join`. -/
def startsWithSlash (s : String) : Bool :=
  match s.data with
  | [] => false
  | c :: _ => c = Char.ofNat 47

/-- Whether a string ends with the POSIX separator `/`: the check
`path.endswith(sep)` inside `posixpath.join`. -/
def endsWithSlash (s : String) : Bool :=
  match s.data.getLast? with
  | none => false
  | some c => c = Char.ofNat 47

/-- Embedding of `os.path.join(a, b)` for two arguments on a POSIX platform:
an absolute second argument discards the first; otherwise the separator `/`
is inserted unless the first argument is empty or already ends in `/`. -/
def osPathJoin (a b : String) : String :=
  if startsWithSlash b then b
  else if a = "" ∨ endsWithSlash a = true then a ++ b
  else a ++ ("/") ++ b

/-- The observable world the script touches: the contents of files, an oracle
`canCreate` telling at which paths `open(path, "w")` succeeds (the enclosing
directory exists and is writable), and the number of file handles the process
currently holds open. -/
structure IOState where
  files : String → Option String
  canCreate : String → Bool
  openHandles : Nat

/-- Outcome of a Python call: a normal return or a propagating exception. -/
inductive PyResult (α : Type) where
  | ok : α → PyResult α
  | exn : String → PyResult α

/-- Embedding of `with open(file_path, "w") as file: file.write(content)`.
If the path cannot be created the open raises and nothing changes.  Otherwise
the handle is acquired and the file truncated; if the write fails partway the
`with` block still closes the handle and the exception propagates; on success
the content is written and the handle closed. -/
def withOpenWriteStr (file_path content : String) (write_fails : Bool)
    (st : IOState) : PyResult Unit × IOState :=
  if st.canCreate file_path then
    let opened : IOState :=
      { files := fun p => if p = file_path then some "" else st.files p,
        canCreate := st.canCreate,
        openHandles := st.openHandles + 1 }
    if write_fails then
      (PyResult.exn ("IOError"), { opened with openHandles := opened.openHandles - 1 })
    else
      (PyResult.ok (),
       { files := fun p => if p = file_path then some content else st.files p,
         canCreate := st.canCreate,
         openHandles := opened.openHandles - 1 })
  else
    (PyResult.exn ("FileNotFoundError"), st)

/-- Embedding of `generate_and_write_secret(directory, file_name)`.  The
random draw of `secrets.token_bytes(32)` is the parameter `random_binary`;
`write_fails` is the oracle for a write failing partway.  The body follows
the source line by line: hex-encode the draw, join the path, open and write,
return the path. -/
def generate_and_write_secret (random_binary : List Nat)
    (directory file_name : String) (write_fails : Bool) (st : IOState) :
    PyResult String × IOState :=
  let hex_representation := bytesHex random_binary
  let file_path := osPathJoin directory file_name
  let r := withOpenWriteStr file_path hex_representation write_fails st
  match r.1 with
  | PyResult.ok _ => (PyResult.ok file_path, r.2)
  | PyResult.exn e => (PyResult.exn e, r.2)

/-- The fixed directory of the `__main__` block. -/
def main_directory : String := "./crypto_data"

/-- The fixed file name of the `__main__` block. -/
def main_file_name : String := "link_secret.txt"

/-- Embedding of the `__main__` block: call the operation with the fixed
directory and file name and print the confirmation line.  On success the
result carries the printed line and the returned path. -/
def mainBlock (random_binary : List Nat) (write_fails : Bool) (st : IOState) :
    PyResult (String × String) × IOState :=
  let r := generate_and_write_secret random_binary main_directory main_file_name
    write_fails st
  match r.1 with
  | PyResult.ok file_path =>
    (PyResult.ok (("Saved LinkSecretFile to ") ++ file_path, file_path), r.2)
  | PyResult.exn e => (PyResult.exn e, r.2)

/-- A file system holding no files. -/
def emptyFiles : String → Option String := fun _ => none

/-- A test state where every path can be created. -/
def stWritable : IOState :=
  { files := emptyFiles, canCreate := fun _ => true, openHandles := 0 }

/-- A test state where no path can be created (directory missing or
read-only). -/
def stReadOnly : IOState :=
  { files := emptyFiles, canCreate := fun _ => false, openHandles := 0 }

/-- A concrete 32-byte draw: all zeros. -/
def draw0 : List Nat := List.replicate 32 0

/-- A second concrete 32-byte draw, distinct from `draw0`. -/
def draw1 : List Nat := List.replicate 32 1

theorem gen_ok_of_canCreate (r : List Nat) (d f : String) (st : IOState)
    (hc : st.canCreate (osPathJoin d f) = true) :
    generate_and_write_secret r d f false st =
      (PyResult.ok (osPathJoin d f),
       { files := fun q => if q = osPathJoin d f then some (bytesHex r) else st.files q,
         canCreate := st.canCreate,
         openHandles := st.openHandles }) := by
  simp [generate_and_write_secret, withOpenWriteStr, hc]

theorem gen_snd_of_canCreate (r : List Nat) (d f : String) (st : IOState)
    (hc : st.canCreate (osPathJoin d f) = true) :
    (generate_and_write_secret r d f false st).2 =
      { files := fun q => if q = osPathJoin d f then some (bytesHex r) else st.files q,
        canCreate := st.canCreate,
        openHandles := st.openHandles } := by
  rw [gen_ok_of_canCreate r d f st hc]

theorem gen_exn_of_not_canCreate (r : List Nat) (d f : String) (wf : Bool)
    (st : IOState) (hc : st.canCreate (osPathJoin d f) = false) :
    generate_and_write_secret r d f wf st = (PyResult.exn ("FileNotFoundError"), st) := by
  simp [generate_and_write_secret, withOpenWriteStr, hc]

theorem gen_exn_of_write_fails (r : List Nat) (d f : String) (st : IOState)
    (hc : st.canCreate (osPathJoin d f) = true) :
    generate_and_write_secret r d f true st =
      (PyResult.exn ("IOError"),
       { files := fun q => if q = osPathJoin d f then some "" else st.files q,
         canCreate := st.canCreate,
         openHandles := st.openHandles }) := by
  simp [generate_and_write_secret, withOpenWriteStr, hc]

theorem gen_ok_inversion (r : List Nat) (d f : String) (wf : Bool) (st : IOState)
    (p : String)
    (h : (generate_and_write_secret r d f wf st).1 = PyResult.ok p) :
    st.canCreate (osPathJoin d f) = true ∧ wf = false ∧ p = osPathJoin d f ∧
    (generate_and_write_secret r d f wf st).2 =
      { files := fun q => if q = osPathJoin d f then some (bytesHex r) else st.files q,
        canCreate := st.canCreate,
        openHandles := st.openHandles } := by
  cases hc : st.canCreate (osPathJoin d f) with
  | false =>
    rw [gen_exn_of_not_canCreate r d f wf st hc] at h
    cases h
  | true =>
    cases wf with
    | true =>
      rw [gen_exn_of_write_fails r d f st hc] at h
      cases h
    | false =>
      rw [gen_ok_of_canCreate r d f st hc] at h
      have hp : p = osPathJoin d f := by
        cases h
        rfl
      refine ⟨rfl, rfl, hp, ?_⟩
      rw [gen_ok_of_canCreate r d f st hc]

/-- Claim C1: on every successful invocation, the file at the returned path
contains exactly the 64-character lowercase hexadecimal encoding of the 32
generated bytes and nothing else: every character is in `0-9a-f`, the length
is exactly twice the byte length (64), and there is no newline character. -/
theorem c1_written_content_is_64_lower_hex (r : List Nat) (d f : String)
    (wf : Bool) (st : IOState) (p : String)
    (hlen : r.length = 32) (hb : ∀ b ∈ r, b < 256)
    (hok : (generate_and_write_secret r d f wf st).1 = PyResult.ok p) :
    ∃ s : String, ((generate_and_write_secret r d f wf st).2).files p = some s ∧
      s.length = 2 * r.length ∧ s.length = 64 ∧
      (∀ c ∈ s.data, IsLowerHexDigit c) ∧ Char.ofNat 10 ∉ s.data := by
  obtain ⟨hc, hwf, hp, hst⟩ := gen_ok_inversion r d f wf st p hok
  have hdata : (bytesHex r).data = bytesHexChars r := rfl
  have hl : (bytesHex r).length = 2 * r.length := by
    show (bytesHex r).data.length = 2 * r.length
    rw [hdata, bytesHexChars_length]
  refine ⟨bytesHex r, ?_, hl, ?_, ?_, ?_⟩
  · rw [hst, hp]
    simp
  · rw [hl, hlen]
  · intro c hcmem
    exact mem_bytesHexChars_hex r hb c (hdata ▸ hcmem)
  · intro hmem
    exact not_isLowerHexDigit_newline (mem_bytesHexChars_hex r hb _ (hdata ▸ hmem))

/-- Claim C2: on every successful invocation the returned path equals the
platform join `osPathJoin directory file_name`, and that same path is the one
the hex string is written to. -/
theorem c2_returned_path_is_join (r : List Nat) (d f : String) (wf : Bool)
    (st : IOState) (p : String)
    (hok : (generate_and_write_secret r d f wf st).1 = PyResult.ok p) :
    p = osPathJoin d f ∧
    ((generate_and_write_secret r d f wf st).2).files (osPathJoin d f)
      = some (bytesHex r) := by
  obtain ⟨hc, hwf, hp, hst⟩ := gen_ok_inversion r d f wf st p hok
  refine ⟨hp, ?_⟩
  rw [hst]
  simp

/-- Claim C3: when the target path cannot be created (directory missing or
not writable), the operation fails with the filesystem error, uncaught and
untranslated, and the state is unchanged: no file is created. -/
theorem c3_missing_directory_error_propagates (r : List Nat) (d f : String)
    (wf : Bool) (st : IOState)
    (hc : st.canCreate (osPathJoin d f) = false) :
    (generate_and_write_secret r d f wf st).1 = PyResult.exn ("FileNotFoundError") ∧
    (generate_and_write_secret r d f wf st).2 = st := by
  rw [gen_exn_of_not_canCreate r d f wf st hc]
  exact ⟨rfl, rfl⟩

/-- Claim C4: two sequential invocations with the same directory and file
name leave the file holding exactly the second call's 64-character hex
string: the write truncates, it does not append or merge. -/
theorem c4_second_call_truncates (r1 r2 : List Nat) (d f : String)
    (st : IOState) (h2len : r2.length = 32)
    (hc : st.canCreate (osPathJoin d f) = true) :
    ((generate_and_write_secret r2 d f false
        (generate_and_write_secret r1 d f false st).2).2).files (osPathJoin d f)
      = some (bytesHex r2) ∧ (bytesHex r2).length = 64 := by
  have hc1 : (IOState.mk (fun q => if q = osPathJoin d f then some (bytesHex r1) else st.files q)
      st.canCreate st.openHandles).canCreate (osPathJoin d f) = true := hc
  rw [gen_snd_of_canCreate r1 d f st hc]
  rw [gen_snd_of_canCreate r2 d f _ hc1]
  constructor
  · simp
  · show (bytesHex r2).data.length = 64
    have hdata : (bytesHex r2).data = bytesHexChars r2 := rfl
    rw [hdata, bytesHexChars_length, h2len]

/-- Claim C5: whenever the two 32-byte draws of two sequential invocations
differ, the two hex encodings differ, so after the second call the file no
longer holds the first secret: the operation is not idempotent. -/
theorem c5_distinct_draws_distinct_secrets (r1 r2 : List Nat)
    (h1len : r1.length = 32) (hb1 : ∀ b ∈ r1, b < 256)
    (h2len : r2.length = 32) (hb2 : ∀ b ∈ r2, b < 256) (hne : r1 ≠ r2)
    (d f : String) (st : IOState)
    (hc : st.canCreate (osPathJoin d f) = true) :
    bytesHex r1 ≠ bytesHex r2 ∧
    ((generate_and_write_secret r2 d f false
        (generate_and_write_secret r1 d f false st).2).2).files (osPathJoin d f)
      ≠ some (bytesHex r1) := by
  have hinj := bytesHex_injOn r1 r2 hb1 hb2 hne
  refine ⟨hinj, ?_⟩
  have hc1 : (IOState.mk (fun q => if q = osPathJoin d f then some (bytesHex r1) else st.files q)
      st.canCreate st.openHandles).canCreate (osPathJoin d f) = true := hc
  rw [gen_snd_of_canCreate r1 d f st hc]
  rw [gen_snd_of_canCreate r2 d f _ hc1]
  simp
  exact fun h => hinj h.symm

/-- Claim C6: a successful invocation changes the file map exactly at the
returned path — the new map is the old map updated there with the hex
string — and leaves everything else in the state untouched: no other file
mutation, no change to what can be created, no leaked handle. -/
theorem c6_frame_only_target_file (r : List Nat) (d f : String) (wf : Bool)
    (st : IOState) (p : String)
    (hok : (generate_and_write_secret r d f wf st).1 = PyResult.ok p) :
    ((generate_and_write_secret r d f wf st).2).files
      = (fun q => if q = p then some (bytesHex r) else st.files q) ∧
    ((generate_and_write_secret r d f wf st).2).canCreate = st.canCreate ∧
    ((generate_and_write_secret r d f wf st).2).openHandles = st.openHandles := by
  obtain ⟨hc, hwf, hp, hst⟩ := gen_ok_inversion r d f wf st p hok
  subst hp
  rw [hst]
  exact ⟨rfl, rfl, rfl⟩

theorem mainBlock_ok_inversion (r : List Nat) (wf : Bool) (st : IOState)
    (line p : String)
    (hok : (mainBlock r wf st).1 = PyResult.ok (line, p)) :
    (generate_and_write_secret r main_directory main_file_name wf st).1
      = PyResult.ok p ∧
    line = ("Saved LinkSecretFile to ") ++ p := by
  cases hg : (generate_and_write_secret r main_directory main_file_name wf st).1 with
  | exn e => simp [mainBlock, hg] at hok
  | ok fp =>
    simp only [mainBlock, hg, PyResult.ok.injEq, Prod.mk.injEq] at hok
    obtain ⟨hline, hp⟩ := hok
    subst hp
    exact ⟨rfl, hline.symm⟩

/-- Claim C7: when the script runs directly, it calls the operation with
directory `./crypto_data` and file name `link_secret.txt`, and on success
prints exactly the line `Saved LinkSecretFile to <path>` for the returned
path, which is `./crypto_data/link_secret.txt`. -/
theorem c7_entry_point_fixed_config (r : List Nat) (wf : Bool) (st : IOState)
    (line p : String)
    (hok : (mainBlock r wf st).1 = PyResult.ok (line, p)) :
    p = osPathJoin main_directory main_file_name ∧
    p = ("./crypto_data/link_secret.txt") ∧
    line = ("Saved LinkSecretFile to ") ++ p ∧
    (generate_and_write_secret r main_directory main_file_name wf st).1
      = PyResult.ok p := by
  obtain ⟨hg, hline⟩ := mainBlock_ok_inversion r wf st line p hok
  have hinv := gen_ok_inversion r main_directory main_file_name wf st p hg
  have hp : p = osPathJoin main_directory main_file_name := hinv.2.2.1
  have hjoin : osPathJoin main_directory main_file_name
      = ("./crypto_data/link_secret.txt") := by decide
  exact ⟨hp, by rw [hp, hjoin], hline, hg⟩

/-- Claim C8: on every exit path — open refused, write failed partway, or
success — the operation returns with exactly as many open handles as it
started with: the file handle, once acquired, is always released. -/
theorem c8_handle_released_on_all_paths (r : List Nat) (d f : String)
    (wf : Bool) (st : IOState) :
    ((generate_and_write_secret r d f wf st).2).openHandles = st.openHandles := by
  cases hc : st.canCreate (osPathJoin d f) with
  | false => rw [gen_exn_of_not_canCreate r d f wf st hc]
  | true =>
    cases wf with
    | false => rw [gen_ok_of_canCreate r d f st hc]
    | true => rw [gen_exn_of_write_fails r d f st hc]

/-- Claim C9: hex round-trip — on every successful invocation, decoding the
written file's content as hexadecimal recovers exactly the generated bytes;
the encoding and write lose no information. -/
theorem c9_hex_roundtrip (r : List Nat) (d f : String) (wf : Bool)
    (st : IOState) (p : String)
    (hlen : r.length = 32) (hb : ∀ b ∈ r, b < 256)
    (hok : (generate_and_write_secret r d f wf st).1 = PyResult.ok p) :
    ∃ s : String, ((generate_and_write_secret r d f wf st).2).files p = some s ∧
      hexDecode s = some r := by
  obtain ⟨hc, hwf, hp, hst⟩ := gen_ok_inversion r d f wf st p hok
  refine ⟨bytesHex r, ?_, hexDecode_bytesHex r hb⟩
  rw [hst, hp]
  simp

/-- Claim C10: when the file name is an absolute path, `os.path.join`
discards the directory argument: the returned path is the file name itself
and the file is written there, not inside the directory. -/
theorem c10_absolute_file_name_ignores_directory (r : List Nat) (d f : String)
    (st : IOState) (habs : startsWithSlash f = true)
    (hc : st.canCreate f = true) :
    osPathJoin d f = f ∧
    (generate_and_write_secret r d f false st).1 = PyResult.ok f ∧
    ((generate_and_write_secret r d f false st).2).files f = some (bytesHex r) := by
  have hj : osPathJoin d f = f := by simp [osPathJoin, habs]
  have hc1 : st.canCreate (osPathJoin d f) = true := by rw [hj]; exact hc
  refine ⟨hj, ?_, ?_⟩
  · rw [gen_ok_of_canCreate r d f st hc1, hj]
  · rw [gen_snd_of_canCreate r d f st hc1]
    simp [hj]

/-- Concrete instantiation of the C1 theorem: the all-zero draw written under
`/tmp/out.txt` in a writable state. -/
theorem c1_witness :
    ∃ s : String,
      ((generate_and_write_secret draw0 ("/tmp") ("out.txt") false stWritable).2).files
        ("/tmp/out.txt") = some s ∧
      s.length = 2 * draw0.length ∧ s.length = 64 ∧
      (∀ c ∈ s.data, IsLowerHexDigit c) ∧ Char.ofNat 10 ∉ s.data :=
  c1_written_content_is_64_lower_hex draw0 ("/tmp") ("out.txt") false stWritable
    ("/tmp/out.txt") (by decide) (by decide) (by rfl)

/-- Concrete instantiation of the C2 theorem. -/
theorem c2_witness :
    ("/tmp/out.txt" : String) = osPathJoin ("/tmp") ("out.txt") ∧
    ((generate_and_write_secret draw0 ("/tmp") ("out.txt") false stWritable).2).files
      (osPathJoin ("/tmp") ("out.txt")) = some (bytesHex draw0) :=
  c2_returned_path_is_join draw0 ("/tmp") ("out.txt") false stWritable
    ("/tmp/out.txt") (by rfl)

/-- Concrete instantiation of the C3 theorem: a state where no path can be
created. -/
theorem c3_witness :
    (generate_and_write_secret draw0 ("/no/such/dir") ("link_secret.txt") false
      stReadOnly).1 = PyResult.exn ("FileNotFoundError") ∧
    (generate_and_write_secret draw0 ("/no/such/dir") ("link_secret.txt") false
      stReadOnly).2 = stReadOnly :=
  c3_missing_directory_error_propagates draw0 ("/no/such/dir") ("link_secret.txt")
    false stReadOnly (by rfl)

/-- Concrete instantiation of the C4 theorem: two sequential writes to the
same path. -/
theorem c4_witness :
    ((generate_and_write_secret draw1 ("/tmp") ("out.txt") false
        (generate_and_write_secret draw0 ("/tmp") ("out.txt") false stWritable).2).2).files
      (osPathJoin ("/tmp") ("out.txt")) = some (bytesHex draw1) ∧
    (bytesHex draw1).length = 64 :=
  c4_second_call_truncates draw0 draw1 ("/tmp") ("out.txt") stWritable
    (by decide) (by rfl)

/-- Concrete instantiation of the C5 theorem: the all-zero and all-one draws
differ, so their encodings differ. -/
theorem c5_witness :
    bytesHex draw0 ≠ bytesHex draw1 ∧
    ((generate_and_write_secret draw1 ("/tmp") ("out.txt") false
        (generate_and_write_secret draw0 ("/tmp") ("out.txt") false stWritable).2).2).files
      (osPathJoin ("/tmp") ("out.txt")) ≠ some (bytesHex draw0) :=
  c5_distinct_draws_distinct_secrets draw0 draw1 (by decide) (by decide)
    (by decide) (by decide) (by decide) ("/tmp") ("out.txt") stWritable (by rfl)

/-- Concrete instantiation of the C6 theorem. -/
theorem c6_witness :
    ((generate_and_write_secret draw0 ("/tmp") ("out.txt") false stWritable).2).files
      = (fun q => if q = ("/tmp/out.txt") then some (bytesHex draw0)
          else stWritable.files q) ∧
    ((generate_and_write_secret draw0 ("/tmp") ("out.txt") false stWritable).2).canCreate
      = stWritable.canCreate ∧
    ((generate_and_write_secret draw0 ("/tmp") ("out.txt") false stWritable).2).openHandles
      = stWritable.openHandles :=
  c6_frame_only_target_file draw0 ("/tmp") ("out.txt") false stWritable
    ("/tmp/out.txt") (by rfl)

/-- Concrete instantiation of the C7 theorem: the entry point on a writable
state. -/
theorem c7_witness :
    ("./crypto_data/link_secret.txt" : String)
      = osPathJoin main_directory main_file_name ∧
    ("./crypto_data/link_secret.txt" : String) = ("./crypto_data/link_secret.txt") ∧
    ("Saved LinkSecretFile to ./crypto_data/link_secret.txt" : String)
      = ("Saved LinkSecretFile to ") ++ ("./crypto_data/link_secret.txt") ∧
    (generate_and_write_secret draw0 main_directory main_file_name false
      stWritable).1 = PyResult.ok ("./crypto_data/link_secret.txt") :=
  c7_entry_point_fixed_config draw0 false stWritable
    ("Saved LinkSecretFile to ./crypto_data/link_secret.txt")
    ("./crypto_data/link_secret.txt") (by rfl)

/-- Concrete instantiation of the C9 theorem. -/
theorem c9_witness :
    ∃ s : String,
      ((generate_and_write_secret draw0 ("/tmp") ("out.txt") false stWritable).2).files
        ("/tmp/out.txt") = some s ∧ hexDecode s = some draw0 :=
  c9_hex_roundtrip draw0 ("/tmp") ("out.txt") false stWritable ("/tmp/out.txt")
    (by decide) (by decide) (by rfl)

/-- Concrete instantiation of the C10 theorem: an absolute file name. -/
theorem c10_witness :
    osPathJoin ("./crypto_data") ("/abs/secret.txt") = ("/abs/secret.txt") ∧
    (generate_and_write_secret draw0 ("./crypto_data") ("/abs/secret.txt") false
      stWritable).1 = PyResult.ok ("/abs/secret.txt") ∧
    ((generate_and_write_secret draw0 ("./crypto_data") ("/abs/secret.txt") false
      stWritable).2).files ("/abs/secret.txt") = some (bytesHex draw0) :=
  c10_absolute_file_name_ignores_directory draw0 ("./crypto_data")
    ("/abs/secret.txt") stWritable (by rfl) (by rfl)
